import Mathlib

/-
Shallow embedding of the Freshchat <-> OpenAI relay bot
(src/server.js and the variants src/unnamed/part_000, src/unnamed/part_001).

External collaborators (the Freshchat HTTP API and the OpenAI assistant
backend) are modelled as oracle inputs: each pipeline function takes an
environment record whose fields give the outcome of each external call
(ownership query response, raw assistant reply or failure, success of each
outbound send / reassignment).  Everything the code itself computes
(escalation detection, marker stripping, state updates, control flow,
the polling loop) is translated from the source.  Outbound effects are
recorded in an explicit event trace.
-/

/-- JS truthiness of a string value (undefined / empty string are falsy;
the model folds undefined into the empty string). -/
def jsTruthyS (s : String) : Bool := s != ""

/-- JS truthiness of a possibly-undefined string (`Option String`):
`none` models `undefined`. -/
def jsTruthyO (o : Option String) : Bool :=
  match o with
  | none => false
  | some s => s != ""

/-- JS strict inequality `a !== b` on possibly-undefined strings. -/
def optNe (a b : Option String) : Bool := a != b

/-- Char-list version of "the first list is a prefix of the second". -/
def startsWithL : List Char → List Char → Bool
  | [], _ => true
  | _ :: _, [] => false
  | p :: ps, c :: cs => p = c && startsWithL ps cs

/-- Char-list version of substring containment. -/
def hasSubL (pat : List Char) : List Char → Bool
  | [] => startsWithL pat []
  | c :: cs => startsWithL pat (c :: cs) || hasSubL pat cs

/-- JS `String.prototype.includes`. -/
def jsIncludes (s pat : String) : Bool := hasSubL pat.data s.data

/-- ASCII lower-casing of one character (the strings the code lower-cases
are ASCII; other characters are unchanged, as in JS). -/
def lcChar (c : Char) : Char :=
  if 65 ≤ c.toNat && c.toNat ≤ 90 then Char.ofNat (c.toNat + 32) else c

/-- JS `String.prototype.toLowerCase` (ASCII). -/
def jsToLower (s : String) : String := String.mk (s.data.map lcChar)

/-- JS `\s` whitespace class (ASCII part). -/
def jsWs (c : Char) : Bool :=
  c = ' ' || c = '\t' || c = '\n' || c = '\r' || c = '\x0b' || c = '\x0c'

/-- JS `String.prototype.trim` (ASCII whitespace). -/
def jsTrim (s : String) : String :=
  String.mk (((s.data.dropWhile jsWs).reverse.dropWhile jsWs).reverse)

/-- JS `Map.get` on a string-keyed map modelled as an association list. -/
def mget (m : List (String × String)) (k : String) : Option String :=
  match m.find? (fun p => p.1 == k) with
  | some p => some p.2
  | none => none

/-- JS `Map.set`. -/
def mset (m : List (String × String)) (k v : String) : List (String × String) :=
  (k, v) :: m.filter (fun p => p.1 != k)

/-- JS `Set.has`. -/
def shas (s : List String) (k : String) : Bool := s.contains k

/-- JS `Set.add`. -/
def sadd (s : List String) (k : String) : List String :=
  if s.contains k then s else k :: s

/-- JS `Set.delete`. -/
def sdel (s : List String) (k : String) : List String :=
  s.filter (fun x => x != k)

/-- The thread id actually used by `getAssistantResponse`: the stored
(JS-truthy) thread id for the conversation when one exists, otherwise
the id of the freshly created thread (`if (!threadId) thread = await
openai.beta.threads.create()`). -/
def useThread (threads : List (String × String)) (cid newTid : String) : String :=
  match mget threads cid with
  | some t => if t != "" then t else newTid
  | none => newTid

/-- Observable external effects of one pipeline invocation, in order. -/
inductive Event where
  /-- an outbound Freshchat message was delivered (conversation id, text) -/
  | send (cid text : String)
  /-- a conversation reassignment PUT succeeded (conversation id, agent id
  when one was sent in the payload) -/
  | reassign (cid : String) (agentId : Option String)
  /-- a user message was submitted to the OpenAI assistant on a thread -/
  | assistantCall (threadId userText : String)
  deriving DecidableEq

/-- Conversation ids and texts of the outbound messages in a trace. -/
def sentMessages (ev : List Event) : List (String × String) :=
  ev.filterMap fun e =>
    match e with
    | Event.send c t => some (c, t)
    | _ => none

/-- Thread ids of the assistant submissions in a trace. -/
def assistantCalls (ev : List Event) : List String :=
  ev.filterMap fun e =>
    match e with
    | Event.assistantCall t _ => some t
    | _ => none

/-- The reassignment calls in a trace. -/
def reassignCalls (ev : List Event) : List (String × Option String) :=
  ev.filterMap fun e =>
    match e with
    | Event.reassign c a => some (c, a)
    | _ => none

/-- The mutable process-wide stores of server.js / part_001:
`conversationThreads` (conversation id -> OpenAI thread id) and
`escalatedConversations` (conversations owned by a human: the bot must
stay silent).  part_001's `threadTimestamps` carries no control-flow
weight for the verified claims and is not tracked. -/
structure SJState where
  threads : List (String × String)
  escalated : List String
  deriving DecidableEq

/- ===================== polling loop (getAssistantResponse) ==============
server.js lines 268-287, part_000 lines 114-129 (first variant,
maxAttempts = 30), part_001 lines 413-436 (also checks 'expired').  The
loop retrieves the run status, then while the status is not 'completed'
and attempts < maxAttempts: throw on 'failed' (and, when checkExpired,
on 'expired'), sleep pollIntervalMs, retrieve again, attempts++.  After
the loop it throws a timeout unless the status is 'completed'.
`statuses i` is the status returned by the (i+1)-th retrieve call. -/

/-- Outcome of the polling loop; each constructor carries the final value
of the `attempts` counter. -/
inductive PollOutcome where
  | ok (attempts : Nat)
  | runFailed (attempts : Nat)
  | runExpired (attempts : Nat)
  | timeout (attempts : Nat)
  deriving DecidableEq

/-- Final value of the `attempts` counter. -/
def PollOutcome.attempts : PollOutcome → Nat
  | .ok a => a
  | .runFailed a => a
  | .runExpired a => a
  | .timeout a => a

/-- The polling loop body; `a` is the current `attempts` counter and `r`
the remaining allowance `maxAttempts - a`, so the JS guard
`attempts < maxAttempts` is exactly `r > 0`. -/
def pollGo (checkExpired : Bool) (statuses : Nat → String) : Nat → Nat → PollOutcome
  | a, 0 => if statuses a = "completed" then .ok a else .timeout a
  | a, r + 1 =>
    if statuses a = "completed" then .ok a
    else if statuses a = "failed" then .runFailed a
    else if checkExpired && statuses a == "expired" then .runExpired a
    else pollGo checkExpired statuses (a + 1) r

/-- The polling loop, started at `attempts = 0` after the first retrieve. -/
def pollLoop (checkExpired : Bool) (maxAttempts : Nat) (statuses : Nat → String) : PollOutcome :=
  pollGo checkExpired statuses 0 maxAttempts

/-- `maxAttempts` of server.js line 270 (also part_001 line 415 and
part_000's second variant). -/
def sjMaxAttempts : Nat := 60

/-- The fixed poll sleep, milliseconds (server.js line 276). -/
def sjPollIntervalMs : Nat := 1000

/-- `maxAttempts` of part_000 line 116 (first variant). -/
def p000aMaxAttempts : Nat := 30

namespace SJ

/- ===================== server.js (first script) ===================== -/

/-- Escalation detection of server.js lines 301-303: two case-sensitive
substring checks and one case-insensitive check for "human". -/
def needsEscalation (responseText : String) : Bool :=
  jsIncludes responseText ("connect you with my manager") ||
  jsIncludes responseText ("escalate") ||
  jsIncludes (jsToLower responseText) ("human")

/-- Notification sent on successful escalation (server.js line 188,
part_001 line 249). -/
def escalationNotice : String :=
  "I\x27m connecting you with a team member who will be with you shortly. 👋"

/-- Hand-back message of `returnToBot` (server.js line 232, part_001
line 311). -/
def imBackMsg : String := "I\x27m back! How can I help you today? 😊"

/-- server.js lines 120-156 / part_001 lines 174-212
(`isConversationWithHuman`): query the conversation's assigned agent;
on a successful response, human iff assigned to a non-bot agent or in
the escalated set; on any request error the catch returns `false`
("assume it\x27s safe to respond").  `query = none` models a failed GET,
`query = some a` a response whose `assigned_agent_id` is `a`. -/
def isConversationWithHuman (bot : Option String) (escalated : List String)
    (cid : String) (query : Option (Option String)) : Bool :=
  match query with
  | none => false
  | some assigned =>
    if jsTruthyO assigned && optNe assigned bot then true
    else if shas escalated cid then true
    else false

/-- server.js lines 159-203 / part_001 lines 215-269 (`escalateToHuman`):
without a configured HUMAN_AGENT_ID, just mark escalated; otherwise PUT
the reassignment (failure -> catch: mark escalated, return false), mark
escalated, send the notice (failure -> catch: return false).  Every path
adds the conversation to the escalated set.  Returns the new escalated
set, the events, and the boolean result. -/
def escalateToHuman (human : Option String) (escalated : List String) (cid : String)
    (putOk sendOk : Bool) : List String × List Event × Bool :=
  if !jsTruthyO human then (sadd escalated cid, [], true)
  else if !putOk then (sadd escalated cid, [], false)
  else if !sendOk then (sadd escalated cid, [Event.reassign cid human], false)
  else (sadd escalated cid, [Event.reassign cid human, Event.send cid escalationNotice], true)

/-- server.js lines 206-242 / part_001 lines 272-324 (`returnToBot`):
when a BOT_AGENT_ID is configured, PUT the reassignment (failure ->
catch: remove from escalated set, return false); remove from the
escalated set; send the "I\x27m back" message (failure -> catch: remove,
return false). -/
def returnToBot (bot : Option String) (escalated : List String) (cid : String)
    (putOk sendOk : Bool) : List String × List Event × Bool :=
  if jsTruthyO bot && !putOk then (sdel escalated cid, [], false)
  else
    let ev0 : List Event := if jsTruthyO bot then [Event.reassign cid bot] else []
    if !sendOk then (sdel escalated cid, ev0, false)
    else (sdel escalated cid, ev0 ++ [Event.send cid imBackMsg], true)

/-- Resolution keywords of server.js lines 378-381. -/
def resolutionKeywords : List String :=
  ["resolved", "handled", "done", "completed", "sorted", "fixed",
   "all set", "back to bot", "return to bot"]

/-- server.js lines 383-385: case-insensitive substring match of any
resolution keyword. -/
def hasResolution (text : String) : Bool :=
  resolutionKeywords.any (fun k => jsIncludes (jsToLower text) k)

/-- Environment (oracle outcomes of the external calls) for one
user-message invocation of the server.js webhook pipeline. -/
structure Env where
  /-- `none`: the ownership GET failed; `some a`: it returned
  `assigned_agent_id = a` -/
  ownerQuery : Option (Option String)
  /-- outcome of the assistant call: raw latest reply text, or a failure
  (timeout at the poll ceiling, run failed, no reply found) -/
  assistant : Except Unit String
  /-- thread id allocated by `openai.beta.threads.create()` when the
  conversation has no stored thread -/
  newThreadId : String
  sendReplyOk : Bool
  escalatePutOk : Bool
  escalateNoticeOk : Bool

/-- server.js lines 396-437: the user-message path of the webhook
handler.  Rejects events whose conversationId or text is JS-falsy
(lines 397-400) and non-user actors (line 403); silently stops when
`isConversationWithHuman` (lines 411-416); otherwise assigns the
conversation to the bot (best effort), runs `getAssistantResponse`
(thread create-or-reuse, submit, poll; modelled by `env.assistant` /
`env.newThreadId`, with the failure modes occurring after submission),
stores the thread id, sends the reply, and escalates when the reply
matches `needsEscalation`.  All errors are swallowed by the handler's
catch (lines 439-442), which performs no further action. -/
def processUserMessage (bot human : Option String) (st : SJState)
    (cid text actorType : String) (env : Env) : SJState × List Event :=
  if !jsTruthyS cid || !jsTruthyS text then (st, [])
  else if actorType != "user" && actorType != "customer" then (st, [])
  else if isConversationWithHuman bot st.escalated cid env.ownerQuery then (st, [])
  else
    let ev0 : List Event := if jsTruthyO bot then [Event.reassign cid bot] else []
    let usedTid := useThread st.threads cid env.newThreadId
    let ev1 := ev0 ++ [Event.assistantCall usedTid text]
    match env.assistant with
    | Except.error _ => (st, ev1)
    | Except.ok reply =>
      let st1 : SJState := ⟨mset st.threads cid usedTid, st.escalated⟩
      if !env.sendReplyOk then (st1, ev1)
      else
        let ev2 := ev1 ++ [Event.send cid reply]
        if needsEscalation reply then
          let r := escalateToHuman human st1.escalated cid env.escalatePutOk env.escalateNoticeOk
          (⟨st1.threads, r.1⟩, ev2 ++ r.2.1)
        else (st1, ev2)

/-- server.js lines 373-394: the agent-message path of the webhook
handler.  For a message from an agent other than the bot in an escalated
conversation whose text matches a resolution keyword, runs
`returnToBot`; otherwise does nothing. -/
def processAgentMessage (bot : Option String) (st : SJState)
    (cid text : String) (agentId : Option String) (putOk sendOk : Bool) :
    SJState × List Event :=
  if jsTruthyS cid && jsTruthyS text && jsTruthyO agentId && optNe agentId bot then
    if shas st.escalated cid then
      if hasResolution text then
        let r := returnToBot bot st.escalated cid putOk sendOk
        (⟨st.threads, r.1⟩, r.2.1)
      else (st, [])
    else (st, [])
  else (st, [])

end SJ

namespace P001

/- ===================== src/unnamed/part_001 ===================== -/

/-- Escalation keywords of part_001 lines 453-461. -/
def escalationKeywords : List String :=
  ["connect you with my manager", "connect you with a manager",
   "speak to my manager", "talk to my manager",
   "escalate", "human agent", "real person"]

/-- part_001 lines 463-465: case-insensitive keyword match on the
assistant reply. -/
def needsEscalation (responseText : String) : Bool :=
  escalationKeywords.any (fun k => jsIncludes (jsToLower responseText) (jsToLower k))

/-- part_001 lines 174-212 (`isConversationWithHuman`): identical logic
to server.js lines 120-156. -/
def isConversationWithHuman (bot : Option String) (escalated : List String)
    (cid : String) (query : Option (Option String)) : Bool :=
  match query with
  | none => false
  | some assigned =>
    if jsTruthyO assigned && optNe assigned bot then true
    else if shas escalated cid then true
    else false

/-- part_001 lines 215-269 (`escalateToHuman`): identical control flow to
server.js lines 159-203 (the extra `saveThreads()` disk writes are not
observable here).  Every path adds the conversation to the escalated
set. -/
def escalateToHuman (human : Option String) (escalated : List String) (cid : String)
    (putOk sendOk : Bool) : List String × List Event × Bool :=
  if !jsTruthyO human then (sadd escalated cid, [], true)
  else if !putOk then (sadd escalated cid, [], false)
  else if !sendOk then (sadd escalated cid, [Event.reassign cid human], false)
  else (sadd escalated cid, [Event.reassign cid human, Event.send cid SJ.escalationNotice], true)

/-- The fixed apology of part_001 lines 544-547. -/
def apologyMsg : String :=
  "I apologize, but I\x27m having trouble processing your request. A team member will assist you shortly."

/-- Environment for one `processMessage` invocation of part_001. -/
structure Env where
  ownerQuery : Option (Option String)
  /-- outcome of the assistant call (run/poll/extraction, after the
  message was submitted on the thread) -/
  assistant : Except Unit String
  newThreadId : String
  sendReplyOk : Bool
  escalatePutOk : Bool
  escalateNoticeOk : Bool
  fallbackSendOk : Bool
  fbEscalatePutOk : Bool
  fbEscalateNoticeOk : Bool

/-- part_001 lines 542-555: the catch block of `processMessage`.  Send
the fixed apology; if that succeeds and a HUMAN_AGENT_ID is configured,
escalate; every failure is swallowed (nothing escapes). -/
def catchPath (human : Option String) (st : SJState) (cid : String) (env : Env)
    (ev : List Event) : SJState × List Event :=
  if !env.fallbackSendOk then (st, ev)
  else
    let ev1 := ev ++ [Event.send cid apologyMsg]
    if jsTruthyO human then
      let r := escalateToHuman human st.escalated cid env.fbEscalatePutOk env.fbEscalateNoticeOk
      (⟨st.threads, r.1⟩, ev1 ++ r.2.1)
    else (st, ev1)

/-- part_001 lines 486-557 (`processMessage`): stop silently when
`isConversationWithHuman`; otherwise `getAssistantResponse` (part_001
lines 383-481: create-or-reuse the thread, record it in the map, submit,
poll, detect keywords), then send the reply after
`formatForWhatsApp(stripCitations(...))` — abstracted as the `clean`
parameter, quantified over in all theorems — and escalate when keywords
matched.  Any failure drops into the catch (`catchPath`).  The modelled
assistant failures (poll timeout, run failed/expired, no reply found)
occur after the thread id was stored. -/
def processMessage (bot human : Option String) (clean : String → String) (st : SJState)
    (cid text : String) (env : Env) : SJState × List Event :=
  if isConversationWithHuman bot st.escalated cid env.ownerQuery then (st, [])
  else
    let usedTid := useThread st.threads cid env.newThreadId
    let st1 : SJState := ⟨mset st.threads cid usedTid, st.escalated⟩
    let ev1 := [Event.assistantCall usedTid text]
    match env.assistant with
    | Except.error _ => catchPath human st1 cid env ev1
    | Except.ok reply =>
      if !env.sendReplyOk then catchPath human st1 cid env ev1
      else
        let ev2 := ev1 ++ [Event.send cid (clean reply)]
        if needsEscalation reply then
          let r := escalateToHuman human st1.escalated cid env.escalatePutOk env.escalateNoticeOk
          (⟨st1.threads, r.1⟩, ev2 ++ r.2.1)
        else (st1, ev2)

/-- part_001 lines 645-659: the user-message guard of the webhook handler
(`if (!conversationId || !messageContent) return;`) in front of
`processMessage`. -/
def webhookUserMessage (bot human : Option String) (clean : String → String)
    (st : SJState) (cid text : String) (env : Env) : SJState × List Event :=
  if !jsTruthyS cid || !jsTruthyS text then (st, [])
  else processMessage bot human clean st cid text env

end P001

namespace P000B

/- ============ src/unnamed/part_000, second variant (lines 314-889) ====
The only variant with the explicit out-of-band escalation marker
`ESCALATE_TO_HUMAN:` (lines 552-564) and the two-message escalation path
of `processMessageAsync` (lines 579-627). -/

/-- The explicit escalation marker checked by `includes` (line 552). -/
def marker : String := "ESCALATE_TO_HUMAN"

/-- The marker with the colon, as used by the two regexes
`/ESCALATE_TO_HUMAN:\s*(.+)/` and `/ESCALATE_TO_HUMAN:.+/g`. -/
def markerColon : List Char := "ESCALATE_TO_HUMAN:".data

/-- Backtracking of the greedy `\s*` before the capture `(.+)` of
`/ESCALATE_TO_HUMAN:\s*(.+)/`: `rest` is the text after the colon and
`k` the number of whitespace characters currently consumed by `\s*`
(tried from the maximal run downwards).  `(.+)` succeeds when the next
character exists and is not a newline, and captures to the end of the
line. -/
def reasonTry (rest : List Char) : Nat → Option (List Char)
  | 0 =>
    match rest with
    | [] => none
    | c :: cs => if c = '\n' then none else some ((c :: cs).takeWhile (fun d => d ≠ '\n'))
  | k + 1 =>
    match rest.drop (k + 1) with
    | [] => reasonTry rest k
    | c :: cs =>
      if c = '\n' then reasonTry rest k
      else some ((c :: cs).takeWhile (fun d => d ≠ '\n'))

/-- Leftmost match of `/ESCALATE_TO_HUMAN:\s*(.+)/`: scan for an
occurrence of the literal; at each occurrence try the greedy `\s*` and
the capture; on failure resume the scan one character further. -/
def matchReasonFrom : List Char → Option (List Char)
  | [] => none
  | c :: cs =>
    if startsWithL markerColon (c :: cs) then
      let after := (c :: cs).drop markerColon.length
      match reasonTry after (after.takeWhile jsWs).length with
      | some cap => some cap
      | none => matchReasonFrom cs
    else matchReasonFrom cs

/-- part_000 lines 557-558: the escalation reason is the trimmed capture,
or "User request" when the regex does not match. -/
def reasonOf (raw : String) : String :=
  match matchReasonFrom raw.data with
  | some cap => jsTrim (String.mk cap)
  | none => "User request"

/-- Fuel-indexed scan of the global replace `/ESCALATE_TO_HUMAN:.+/g`
with the empty string: at each position where the literal is followed by
at least one non-newline character, delete through the end of that line
and resume after it.  The fuel starts at the list length, which bounds
the number of steps. -/
def stripGo : Nat → List Char → List Char
  | _, [] => []
  | 0, s => s
  | fuel + 1, c :: cs =>
    if startsWithL markerColon (c :: cs) then
      match (c :: cs).drop markerColon.length with
      | [] => c :: stripGo fuel cs
      | d :: ds =>
        if d = '\n' then c :: stripGo fuel cs
        else stripGo fuel ((d :: ds).dropWhile (fun e => e ≠ '\n'))
    else c :: stripGo fuel cs

/-- part_000 line 559: `raw.replace(/ESCALATE_TO_HUMAN:.+/g, '')`. -/
def stripMarkerLines (s : List Char) : List Char := stripGo s.length s

/-- part_000 lines 559-564: the user-visible cleaned text — marker lines
removed and trimmed, with the fixed placeholder substituted when the
result is empty. -/
def cleanOf (raw : String) : String :=
  let c := jsTrim (String.mk (stripMarkerLines raw.data))
  if c == "" then "Let me connect you with one of our team members." else c

/-- Result record of part_000's `getAssistantResponse`
(lines 566-571). -/
structure AssistantResult where
  response : String
  threadId : String
  needsEscalation : Bool
  escalationReason : String
  deriving DecidableEq

/-- part_000 lines 552-571: escalation detection and marker handling on
the raw latest assistant message. -/
def assistantResult (raw tid : String) : AssistantResult :=
  if jsIncludes raw marker then
    ⟨cleanOf raw, tid, true, reasonOf raw⟩
  else
    ⟨raw, tid, false, ""⟩

/-- The second fixed notification of part_000 line 601. -/
def notice : String := "A team member will be with you shortly!"

/-- The fallback message of part_000 lines 617-620. -/
def fallbackMsg : String :=
  "I\x27m having trouble. Let me connect you with a human agent."

/-- Environment for one `processMessageAsync` invocation of part_000's
second variant. -/
structure Env where
  assistant : Except Unit String
  newThreadId : String
  sendReplyOk : Bool
  /-- outcome of `assignToHumanAgent` (which rethrows its error) -/
  assignOk : Bool
  sendNoticeOk : Bool
  fallbackSendOk : Bool
  fallbackAssignOk : Bool

/-- part_000 lines 610-626: the catch block of `processMessageAsync`:
send the fallback message, then `assignToHumanAgent`; failures are
swallowed by the inner catch. -/
def catchPath (threads : List (String × String)) (cid : String) (env : Env)
    (ev : List Event) : List (String × String) × List Event :=
  if !env.fallbackSendOk then (threads, ev)
  else
    let ev1 := ev ++ [Event.send cid fallbackMsg]
    if !env.fallbackAssignOk then (threads, ev1)
    else (threads, ev1 ++ [Event.reassign cid none])

/-- part_000 lines 579-627 (`processMessageAsync`): get the assistant
response (thread create-or-reuse, submit, poll, marker handling), store
the thread id, send the (cleaned) reply; when escalation was detected,
`assignToHumanAgent` (a PUT with `status: assigned` and no agent id)
and then the second fixed notification.  Any failure drops into the
catch.  This variant has no escalated set; the thread map is updated
only after a successful assistant call (line 591). -/
def processMessageAsync (threads : List (String × String)) (cid text : String)
    (env : Env) : List (String × String) × List Event :=
  let usedTid := useThread threads cid env.newThreadId
  let ev1 := [Event.assistantCall usedTid text]
  match env.assistant with
  | Except.error _ => catchPath threads cid env ev1
  | Except.ok raw =>
    let r := assistantResult raw usedTid
    let threads1 := mset threads cid usedTid
    if !env.sendReplyOk then catchPath threads1 cid env ev1
    else
      let ev2 := ev1 ++ [Event.send cid r.response]
      if r.needsEscalation then
        if !env.assignOk then catchPath threads1 cid env ev2
        else
          let ev3 := ev2 ++ [Event.reassign cid none]
          if !env.sendNoticeOk then catchPath threads1 cid env ev3
          else (threads1, ev3 ++ [Event.send cid notice])
      else (threads1, ev2)

end P000B

/- ===================== concrete fixtures ===================== -/

/-- C1 counterexample fixture: a conversation already in the escalated
set. -/
def stEscC1 : SJState := ⟨[], ["E1"]⟩

/-- C1 counterexample fixture: the ownership GET fails, the assistant
answers normally. -/
def envFailC1 : SJ.Env := ⟨none, Except.ok ("Hello there."), "T1", true, true, true⟩

/-- C1 witness fixture: the ownership GET succeeds (unassigned). -/
def envOkC1 : SJ.Env := ⟨some none, Except.ok ("Hello there."), "T1", true, true, true⟩

/-- C1 witness fixture for the part_001 pipeline. -/
def envOkC1P : P001.Env :=
  ⟨some none, Except.ok ("Hello there."), "T1", true, true, true, true, true, true⟩

/-- C2 counterexample fixture: the assistant reply carries the marker
claimed by the specification ("ESCALATE:"), not the one in the code. -/
def envBadC2 : P000B.Env :=
  ⟨Except.ok ("Sure.\nESCALATE: billing dispute"), "T1", true, true, true, true, true⟩

/-- C2 witness fixture: the reply carries the marker actually checked by
the code. -/
def envGoodC2 : P000B.Env :=
  ⟨Except.ok ("Sure.\nESCALATE_TO_HUMAN: billing dispute"), "T1", true, true, true, true, true⟩

/-- C3 fixture: the assistant call fails; every Freshchat call
succeeds. -/
def envErrC3 : P001.Env :=
  ⟨some none, Except.error (), "T1", true, true, true, true, true, true⟩

/-- C4 fixture: the claim's concrete scenario (reply with no escalation
signal). -/
def envC4 : SJ.Env := ⟨some none, Except.ok ("Hello! How can I help?"), "T1", true, true, true⟩

/-- C5 fixture: a run that completes on the 41st status retrieval
(attempts counter 40). -/
def statusesLate : Nat → String := fun i => if i < 40 then "in_progress" else "completed"

/-- C6 fixture. -/
def envC6 : SJ.Env := ⟨some none, Except.ok ("ok"), "T1", true, true, true⟩

/-- C6 witness fixture for the part_001 webhook guard. -/
def envC6P : P001.Env :=
  ⟨some none, Except.ok ("ok"), "T1", true, true, true, true, true, true⟩

/-- C9 fixtures: two sequential invocations for the same fresh
conversation. -/
def envFirstC9 : SJ.Env := ⟨some none, Except.ok ("Hello!"), "T9", true, true, true⟩

/-- C9 second-call fixture: a different thread would be allocated if the
stored one were not reused. -/
def envSecondC9 : SJ.Env := ⟨some none, Except.ok ("Sure thing."), "T9b", true, true, true⟩

/-- C10 fixture: an escalated conversation. -/
def stEscC10 : SJState := ⟨[], ["E2"]⟩

/-- C10 fixture: the ownership GET fails. -/
def envFailC10 : SJ.Env := ⟨none, Except.ok ("Hi."), "T2", true, true, true⟩

/- ===================== helper lemmas ===================== -/

theorem mget_mset_self (m : List (String × String)) (k v : String) :
    mget (mset m k v) k = some v := by
  simp [mget, mset]

theorem useThread_mset (m : List (String × String)) (k v w : String) :
    useThread (mset m k v) k w = if v != "" then v else w := by
  simp [useThread, mget_mset_self]

theorem useThread_fresh (m : List (String × String)) (k w : String)
    (h : mget m k = none) : useThread m k w = w := by
  simp [useThread, h]

theorem shas_sadd_self (s : List String) (k : String) : shas (sadd s k) k = true := by
  simp only [shas, sadd]
  split
  · assumption
  · simp [List.contains_cons]

theorem shas_sdel_self (s : List String) (k : String) : shas (sdel s k) k = false := by
  simp only [shas, sdel]
  induction s with
  | nil => rfl
  | cons a t ih =>
    by_cases h : a = k
    · simp only [h, List.filter]
      simp only [bne_self_eq_false]
      exact ih
    · have hne : (a != k) = true := by simp [bne, h]
      have hne2 : ¬k = a := fun hk => h hk.symm
      simp [List.filter_cons, hne, List.contains_cons, ih, hne2]

theorem pollGo_attempts_le (c : Bool) (s : Nat → String) :
    ∀ r a, (pollGo c s a r).attempts ≤ a + r := by
  intro r
  induction r with
  | zero =>
    intro a
    simp only [pollGo]
    split <;> simp [PollOutcome.attempts]
  | succ r ih =>
    intro a
    simp only [pollGo]
    split
    · simp only [PollOutcome.attempts]
      omega
    · split
      · simp only [PollOutcome.attempts]
        omega
      · split
        · simp only [PollOutcome.attempts]
          omega
        · have := ih (a + 1)
          omega

theorem pollLoop_attempts_le (c : Bool) (m : Nat) (s : Nat → String) :
    (pollLoop c m s).attempts ≤ m := by
  have h := pollGo_attempts_le c s m 0
  simpa [pollLoop] using h

theorem pollGo_timeout (s : Nat → String) :
    ∀ r a, (∀ i, i ≤ a + r → s i ≠ "completed" ∧ s i ≠ "failed") →
      pollGo false s a r = PollOutcome.timeout (a + r) := by
  intro r
  induction r with
  | zero =>
    intro a h
    have h0 := h a (by omega)
    simp [pollGo, h0.1]
  | succ r ih =>
    intro a h
    have h0 := h a (by omega)
    have hrec : pollGo false s (a + 1) r = PollOutcome.timeout ((a + 1) + r) :=
      ih (a + 1) (fun i hi => h i (by omega))
    have harr : a + (r + 1) = (a + 1) + r := by omega
    rw [harr]
    simp [pollGo, h0.1, h0.2, hrec]

theorem pollLoop_timeout (m : Nat) (s : Nat → String)
    (h : ∀ i, i ≤ m → s i ≠ "completed" ∧ s i ≠ "failed") :
    pollLoop false m s = PollOutcome.timeout m := by
  have hh := pollGo_timeout s m 0 (by simpa using h)
  simpa [pollLoop] using hh

/- ===================== claim theorems ===================== -/

/-- C1 counterexample: the claim ("for every conversation in the
escalated set, processing an inbound user message submits nothing to the
assistant and sends nothing") fails as stated: when the ownership GET to
the messaging platform fails, `isConversationWithHuman` returns `false`
from its catch without consulting the escalated set, and the pipeline
calls the assistant and sends its reply even though the conversation is
escalated (here: conversation "E1" is in the escalated set, yet one
outbound assistant reply is sent). -/
theorem C1_counterexample :
    shas stEscC1.escalated ("E1") = true ∧
    assistantCalls (SJ.processUserMessage none none stEscC1 ("E1") ("help") ("user") envFailC1).2
      = [("T1")] ∧
    sentMessages (SJ.processUserMessage none none stEscC1 ("E1") ("help") ("user") envFailC1).2
      = [(("E1"), ("Hello there."))] := by
  decide

/-- C1 (amended): provided the ownership query to the messaging platform
succeeds (returns any response), processing an inbound user message for
a conversation in the escalated set submits nothing to the assistant,
sends no outbound message, and leaves all state unchanged — in both the
server.js webhook pipeline and the part_001 `processMessage`
pipeline. -/
theorem C1_amended_thm (bot human : Option String) (clean : String → String)
    (st : SJState) (cid text actorType : String) (q : Option String)
    (envS : SJ.Env) (envP : P001.Env)
    (hS : envS.ownerQuery = some q) (hP : envP.ownerQuery = some q)
    (hesc : shas st.escalated cid = true) :
    SJ.processUserMessage bot human st cid text actorType envS = (st, []) ∧
    P001.processMessage bot human clean st cid text envP = (st, []) := by
  have hw : SJ.isConversationWithHuman bot st.escalated cid (some q) = true := by
    simp [SJ.isConversationWithHuman, hesc]
  have hw2 : P001.isConversationWithHuman bot st.escalated cid (some q) = true := by
    simp [P001.isConversationWithHuman, hesc]
  constructor
  · simp [SJ.processUserMessage, hS, hw]
  · simp [P001.processMessage, hP, hw2]

/-- C1 witness: the amended theorem at a concrete escalated conversation
with a successful (unassigned) ownership response. -/
theorem C1_witness :
    SJ.processUserMessage none none stEscC1 ("E1") ("help") ("user") envOkC1 = (stEscC1, []) ∧
    P001.processMessage none none id stEscC1 ("E1") ("help") envOkC1P = (stEscC1, []) :=
  C1_amended_thm none none id stEscC1 ("E1") ("help") ("user") none envOkC1 envOkC1P
    rfl rfl (by decide)

/-- C2 counterexample: the claim's concrete scenario fails on the code.
The marker the code checks is "ESCALATE_TO_HUMAN", not "ESCALATE:", so
for the claimed reply "Sure.\nESCALATE: billing dispute" no escalation
is detected: exactly one outbound message is sent, verbatim and
unstripped, and no reassignment happens (so the owner does not
transition to HUMAN and no notice is sent). -/
theorem C2_counterexample :
    jsIncludes ("Sure.\nESCALATE: billing dispute") P000B.marker = false ∧
    sentMessages (P000B.processMessageAsync [] ("C2") ("help me") envBadC2).2
      = [(("C2"), ("Sure.\nESCALATE: billing dispute"))] ∧
    reassignCalls (P000B.processMessageAsync [] ("C2") ("help me") envBadC2).2 = [] := by
  decide

/-- C2 (amended): the explicit escalation marker is "ESCALATE_TO_HUMAN:"
(not "ESCALATE:").  For every assistant reply containing it (all
external sends and the reassignment succeeding), handling the user
message sends exactly two outbound messages — the cleaned reply (marker
lines stripped; a fixed placeholder if stripping leaves nothing), then
the fixed notice — and invokes the human reassignment; the recorded
escalation reason is the trailing string after the marker.  In
particular for the reply "Sure.\nESCALATE_TO_HUMAN: billing dispute" the
cleaned text is "Sure." and the recorded reason "billing dispute". -/
theorem C2_amended_thm (threads : List (String × String)) (cid text raw : String)
    (env : P000B.Env)
    (ha : env.assistant = Except.ok raw)
    (hm : jsIncludes raw P000B.marker = true)
    (h1 : env.sendReplyOk = true) (h2 : env.assignOk = true) (h3 : env.sendNoticeOk = true) :
    sentMessages (P000B.processMessageAsync threads cid text env).2
      = [(cid, P000B.cleanOf raw), (cid, P000B.notice)] ∧
    reassignCalls (P000B.processMessageAsync threads cid text env).2 = [(cid, none)] ∧
    (P000B.assistantResult raw (useThread threads cid env.newThreadId)).escalationReason
      = P000B.reasonOf raw ∧
    P000B.cleanOf ("Sure.\nESCALATE_TO_HUMAN: billing dispute") = ("Sure.") ∧
    P000B.reasonOf ("Sure.\nESCALATE_TO_HUMAN: billing dispute") = ("billing dispute") := by
  refine ⟨?_, ?_, ?_, by decide, by decide⟩
  · simp [P000B.processMessageAsync, ha, h1, h2, h3, P000B.assistantResult, hm,
      sentMessages, List.filterMap]
  · simp [P000B.processMessageAsync, ha, h1, h2, h3, P000B.assistantResult, hm,
      reassignCalls, List.filterMap]
  · simp [P000B.assistantResult, hm]

/-- C2 witness: the amended theorem at the concrete scenario
(conversation "C2", reply "Sure.\nESCALATE_TO_HUMAN: billing
dispute"). -/
theorem C2_witness :
    sentMessages (P000B.processMessageAsync [] ("C2") ("help me") envGoodC2).2
      = [(("C2"), P000B.cleanOf ("Sure.\nESCALATE_TO_HUMAN: billing dispute")),
         (("C2"), P000B.notice)] ∧
    reassignCalls (P000B.processMessageAsync [] ("C2") ("help me") envGoodC2).2
      = [(("C2"), none)] :=
  let h := C2_amended_thm [] ("C2") ("help me") ("Sure.\nESCALATE_TO_HUMAN: billing dispute")
    envGoodC2 rfl (by decide) rfl rfl rfl
  ⟨h.1, h.2.1⟩

/-- C3 counterexample: with a configured HUMAN_AGENT_ID and all
Freshchat calls succeeding, an assistant failure makes part_001's
`processMessage` send the fixed apology AND the escalation notice — two
outbound messages, not "exactly one fixed fallback/apology message" as
claimed. -/
theorem C3_counterexample :
    sentMessages (P001.processMessage none (some ("H")) id ⟨[], []⟩ ("X") ("help") envErrC3).2
      = [(("X"), P001.apologyMsg), (("X"), SJ.escalationNotice)] ∧
    (sentMessages (P001.processMessage none (some ("H")) id ⟨[], []⟩ ("X") ("help") envErrC3).2).length
      ≠ 1 := by
  decide

/-- C3 (amended): when the assistant call fails (timeout at the poll
ceiling, run failed/expired, or no reply found) and the fallback send
succeeds, the handler sends the fixed apology message; when a human
agent id is configured (and the reassignment and notice send succeed) it
additionally escalates — the owner becomes HUMAN and a second notice
message is sent; when no human agent id is configured the owner stays
BOT and only the apology is sent.  No exception escapes: the handler is
modelled as a total function and every failure branch is absorbed by its
catch blocks. -/
theorem C3_amended_thm (bot human : Option String) (clean : String → String)
    (st : SJState) (cid text : String) (env : P001.Env)
    (ha : env.assistant = Except.error ())
    (hq : env.ownerQuery = some none)
    (hesc0 : shas st.escalated cid = false)
    (hf : env.fallbackSendOk = true) :
    (jsTruthyO human = false →
      sentMessages (P001.processMessage bot human clean st cid text env).2
        = [(cid, P001.apologyMsg)] ∧
      (P001.processMessage bot human clean st cid text env).1.escalated = st.escalated) ∧
    (jsTruthyO human = true → env.fbEscalatePutOk = true → env.fbEscalateNoticeOk = true →
      sentMessages (P001.processMessage bot human clean st cid text env).2
        = [(cid, P001.apologyMsg), (cid, SJ.escalationNotice)] ∧
      shas (P001.processMessage bot human clean st cid text env).1.escalated cid = true) := by
  have hw : P001.isConversationWithHuman bot st.escalated cid (some none) = false := by
    simp [P001.isConversationWithHuman, jsTruthyO, hesc0]
  constructor
  · intro hh
    simp [P001.processMessage, hq, hw, ha, P001.catchPath, hf, hh,
      sentMessages, List.filterMap]
  · intro hh hput hsend
    simp [P001.processMessage, hq, hw, ha, P001.catchPath, hf, hh,
      P001.escalateToHuman, hput, hsend, sentMessages, List.filterMap, shas_sadd_self]

/-- C3 witness: the amended theorem at concrete inputs, for both the
configured and the unconfigured human-agent case. -/
theorem C3_witness :
    sentMessages (P001.processMessage none (some ("H")) id ⟨[], []⟩ ("Y") ("help") envErrC3).2
      = [(("Y"), P001.apologyMsg), (("Y"), SJ.escalationNotice)] ∧
    sentMessages (P001.processMessage none none id ⟨[], []⟩ ("Y") ("help") envErrC3).2
      = [(("Y"), P001.apologyMsg)] :=
  ⟨((C3_amended_thm none (some ("H")) id ⟨[], []⟩ ("Y") ("help") envErrC3
      rfl rfl (by decide) rfl).2 (by decide) rfl rfl).1,
   ((C3_amended_thm none none id ⟨[], []⟩ ("Y") ("help") envErrC3
      rfl rfl (by decide) rfl).1 (by decide)).1⟩

/-- C4: an assistant reply matching none of the code's escalation checks
(`SJ.needsEscalation reply = false`, i.e. no marker and no configured
keyword) leaves the owner at BOT and results in exactly one outbound
message, the reply verbatim; in particular the concrete scenario:
conversation "C1", user text "hi", reply "Hello! How can I help?" gives
exactly the one outbound send ("C1", "Hello! How can I help?"). -/
theorem C4_thm (bot human : Option String) (st : SJState) (cid text reply : String)
    (env : SJ.Env)
    (hcid : jsTruthyS cid = true) (htext : jsTruthyS text = true)
    (hnw : SJ.isConversationWithHuman bot st.escalated cid env.ownerQuery = false)
    (ha : env.assistant = Except.ok reply)
    (hr : SJ.needsEscalation reply = false)
    (hs : env.sendReplyOk = true) :
    sentMessages (SJ.processUserMessage bot human st cid text ("user") env).2 = [(cid, reply)] ∧
    (SJ.processUserMessage bot human st cid text ("user") env).1.escalated = st.escalated ∧
    SJ.needsEscalation ("Hello! How can I help?") = false ∧
    sentMessages (SJ.processUserMessage none none ⟨[], []⟩ ("C1") ("hi") ("user") envC4).2
      = [(("C1"), ("Hello! How can I help?"))] := by
  refine ⟨?_, ?_, by decide, by decide⟩ <;>
  · by_cases hb : jsTruthyO bot = true <;>
      simp [SJ.processUserMessage, hcid, htext, hnw, ha, hr, hs, hb,
        sentMessages, List.filterMap]

/-- C4 witness: the theorem at a concrete fresh conversation. -/
theorem C4_witness :
    sentMessages (SJ.processUserMessage none none ⟨[], []⟩ ("W1") ("hi") ("user") envC4).2
      = [(("W1"), ("Hello! How can I help?"))] :=
  (C4_thm none none ⟨[], []⟩ ("W1") ("hi") ("Hello! How can I help?") envC4
    (by decide) (by decide) (by decide) rfl (by decide) rfl).1

/-- C5 counterexample: the claim's 60-attempt ceiling does not hold of
the polling loop cited in part_000 lines 114-129, whose `maxAttempts`
is 30: on a run whose status first reads "completed" at attempts
counter 40, that loop fails with a timeout at 30 attempts, while the
60-ceiling loop of server.js succeeds at 40. -/
theorem C5_counterexample :
    p000aMaxAttempts = 30 ∧
    pollLoop false p000aMaxAttempts statusesLate = PollOutcome.timeout 30 ∧
    pollLoop false sjMaxAttempts statusesLate = PollOutcome.ok 40 := by
  refine ⟨rfl, by decide, by decide⟩

/-- C5 (amended): every polling loop in the repository terminates after
a bounded number of attempts — the ceiling is 60 attempts at the
1000 ms poll interval in server.js (and in part_001's loop, which also
checks 'expired'), but 30 attempts in part_000's first variant — and a
run that has not completed (or failed) by the ceiling makes the
60-attempt loop fail with a timeout rather than poll further. -/
theorem C5_amended_thm :
    sjMaxAttempts = 60 ∧ sjPollIntervalMs = 1000 ∧ p000aMaxAttempts = 30 ∧
    (∀ statuses : Nat → String,
      (pollLoop false sjMaxAttempts statuses).attempts ≤ sjMaxAttempts) ∧
    (∀ statuses : Nat → String,
      (pollLoop true sjMaxAttempts statuses).attempts ≤ sjMaxAttempts) ∧
    (∀ statuses : Nat → String,
      (pollLoop false p000aMaxAttempts statuses).attempts ≤ p000aMaxAttempts) ∧
    (∀ statuses : Nat → String,
      (∀ i, i ≤ sjMaxAttempts → statuses i ≠ ("completed") ∧ statuses i ≠ ("failed")) →
      pollLoop false sjMaxAttempts statuses = PollOutcome.timeout sjMaxAttempts) :=
  ⟨rfl, rfl, rfl,
   fun statuses => pollLoop_attempts_le false sjMaxAttempts statuses,
   fun statuses => pollLoop_attempts_le true sjMaxAttempts statuses,
   fun statuses => pollLoop_attempts_le false p000aMaxAttempts statuses,
   fun statuses h => pollLoop_timeout sjMaxAttempts statuses h⟩

/-- C5 witness: the timeout clause of the amended theorem at a concrete
never-completing run. -/
theorem C5_witness :
    pollLoop false sjMaxAttempts (fun _ => ("queued")) = PollOutcome.timeout sjMaxAttempts := by
  apply C5_amended_thm.2.2.2.2.2.2
  refine fun i _ => ?_
  show ("queued" : String) ≠ ("completed") ∧ ("queued" : String) ≠ ("failed")
  exact ⟨by decide, by decide⟩

/-- C6 counterexample: the handler's guard is JS truthiness
(`!conversationId || !messageContent`), not emptiness after trimming: a
whitespace-only text " " is truthy, so the event is NOT rejected — the
pipeline calls the assistant and sends a reply, contradicting the claim
that such input is rejected with no further action. -/
theorem C6_counterexample :
    jsTruthyS (" ") = true ∧
    jsTrim (" ") = ("") ∧
    assistantCalls (SJ.processUserMessage none none ⟨[], []⟩ ("C9") (" ") ("user") envC6).2
      = [("T1")] ∧
    sentMessages (SJ.processUserMessage none none ⟨[], []⟩ ("C9") (" ") ("user") envC6).2
      = [(("C9"), ("ok"))] := by
  decide

/-- C6 (amended): an inbound user-message event whose conversationId or
text is empty (or missing) is silently dropped with no further action —
no assistant call, no outbound message, no state mutation — in both the
server.js handler and the part_001 webhook guard; whitespace-only text
is not rejected (no trimming is applied before the check, and the code
raises no InvalidInput error value: the rejection is an early
return). -/
theorem C6_amended_thm (bot human : Option String) (clean : String → String)
    (st : SJState) (cid text actorType : String) (envS : SJ.Env) (envP : P001.Env)
    (h : jsTruthyS cid = false ∨ jsTruthyS text = false) :
    SJ.processUserMessage bot human st cid text actorType envS = (st, []) ∧
    P001.webhookUserMessage bot human clean st cid text envP = (st, []) := by
  rcases h with h | h <;>
    exact ⟨by simp [SJ.processUserMessage, h], by simp [P001.webhookUserMessage, h]⟩

/-- C6 witness: the amended theorem at an empty conversationId. -/
theorem C6_witness :
    SJ.processUserMessage none none ⟨[], []⟩ ("") ("hello") ("user") envC6 = (⟨[], []⟩, []) ∧
    P001.webhookUserMessage none none id ⟨[], []⟩ ("") ("hello") envC6P = (⟨[], []⟩, []) :=
  C6_amended_thm none none id ⟨[], []⟩ ("") ("hello") ("user") envC6 envC6P
    (Or.inl (by decide))

theorem assistantCalls_append (a b : List Event) :
    assistantCalls (a ++ b) = assistantCalls a ++ assistantCalls b := by
  simp [assistantCalls, List.filterMap_append]

theorem assistantCalls_nil : assistantCalls [] = [] := rfl

theorem assistantCalls_send (c t : String) (tl : List Event) :
    assistantCalls (Event.send c t :: tl) = assistantCalls tl := rfl

theorem assistantCalls_reassign (c : String) (a : Option String) (tl : List Event) :
    assistantCalls (Event.reassign c a :: tl) = assistantCalls tl := rfl

theorem assistantCalls_cons_call (t u : String) (tl : List Event) :
    assistantCalls (Event.assistantCall t u :: tl) = t :: assistantCalls tl := rfl

theorem assistantCalls_escalate (human : Option String) (esc : List String)
    (cid : String) (p s : Bool) :
    assistantCalls (SJ.escalateToHuman human esc cid p s).2.1 = [] := by
  simp only [SJ.escalateToHuman]
  split
  · rfl
  · split
    · rfl
    · split <;> rfl

/-- C7: whatever the outcome of the external reassignment PUT and of the
notice send (and whether or not a human agent id is configured), after
`escalateToHuman` completes the conversation is in the escalated set —
the in-memory HUMAN flag is never reverted by an external failure — in
both the server.js and the part_001 implementation. -/
theorem C7_thm :
    ∀ (human : Option String) (escalated : List String) (cid : String) (putOk sendOk : Bool),
      shas (SJ.escalateToHuman human escalated cid putOk sendOk).1 cid = true ∧
      shas (P001.escalateToHuman human escalated cid putOk sendOk).1 cid = true := by
  intro human escalated cid putOk sendOk
  have h1 : (SJ.escalateToHuman human escalated cid putOk sendOk).1 = sadd escalated cid := by
    simp only [SJ.escalateToHuman]
    split
    · rfl
    · split
      · rfl
      · split <;> rfl
  have h2 : (P001.escalateToHuman human escalated cid putOk sendOk).1 = sadd escalated cid := by
    simp only [P001.escalateToHuman]
    split
    · rfl
    · split
      · rfl
      · split <;> rfl
  rw [h1, h2]
  exact ⟨shas_sadd_self escalated cid, shas_sadd_self escalated cid⟩

/-- C8: an operator message (agent other than the bot) whose text is
"all set, resolved" — which matches a resolution keyword
case-insensitively — while the conversation is escalated removes it from
the escalated set (owner back to BOT) and sends exactly one outbound
message, the fixed "I\x27m back" text (with the reassignment and send
succeeding); the same message while the owner is already BOT changes
nothing and sends nothing. -/
theorem C8_thm (bot : Option String) (st : SJState) (cid : String) (agentId : Option String)
    (hcid : jsTruthyS cid = true)
    (hag : jsTruthyO agentId = true) (hne : optNe agentId bot = true) :
    (shas st.escalated cid = true →
      sentMessages (SJ.processAgentMessage bot st cid ("all set, resolved") agentId true true).2
        = [(cid, SJ.imBackMsg)] ∧
      shas (SJ.processAgentMessage bot st cid ("all set, resolved") agentId true true).1.escalated cid
        = false) ∧
    (shas st.escalated cid = false →
      SJ.processAgentMessage bot st cid ("all set, resolved") agentId true true = (st, [])) := by
  have hres : SJ.hasResolution ("all set, resolved") = true := by decide
  have htext : jsTruthyS ("all set, resolved") = true := by decide
  constructor
  · intro hesc
    by_cases hb : jsTruthyO bot = true <;>
      simp [SJ.processAgentMessage, hcid, htext, hag, hne, hesc, hres,
        SJ.returnToBot, hb, sentMessages, List.filterMap, shas_sdel_self]
  · intro hesc
    simp [SJ.processAgentMessage, hcid, htext, hag, hne, hesc]

/-- C8 witness: the theorem at a concrete escalated conversation and at
the same conversation when not escalated. -/
theorem C8_witness :
    sentMessages (SJ.processAgentMessage none ⟨[], ["K1"]⟩ ("K1") ("all set, resolved")
        (some ("AG")) true true).2 = [(("K1"), SJ.imBackMsg)] ∧
    SJ.processAgentMessage none ⟨[], []⟩ ("K1") ("all set, resolved") (some ("AG")) true true
      = (⟨[], []⟩, []) :=
  ⟨((C8_thm none ⟨[], ["K1"]⟩ ("K1") (some ("AG")) (by decide) (by decide) (by decide)).1
      (by decide)).1,
   (C8_thm none ⟨[], []⟩ ("K1") (some ("AG")) (by decide) (by decide) (by decide)).2
      (by decide)⟩

/-- C9: for a conversation with no stored session, two sequential
successful invocations of the user-message pipeline use the same
assistant thread id: the first call creates and records
`env1.newThreadId`, and the second call's assistant submission reuses
exactly that id (whatever thread `env2` would have allocated). -/
theorem C9_thm (bot human : Option String) (st : SJState) (cid t1 t2 r1 r2 : String)
    (env1 env2 : SJ.Env)
    (hcid : jsTruthyS cid = true) (ht1 : jsTruthyS t1 = true) (ht2 : jsTruthyS t2 = true)
    (h0 : mget st.threads cid = none)
    (hesc : shas st.escalated cid = false)
    (hq1 : env1.ownerQuery = some none) (hq2 : env2.ownerQuery = some none)
    (ha1 : env1.assistant = Except.ok r1) (ha2 : env2.assistant = Except.ok r2)
    (hne1 : SJ.needsEscalation r1 = false)
    (hs1 : env1.sendReplyOk = true)
    (htid : (env1.newThreadId != "") = true) :
    assistantCalls (SJ.processUserMessage bot human st cid t1 ("user") env1).2
      = [env1.newThreadId] ∧
    assistantCalls (SJ.processUserMessage bot human
        (SJ.processUserMessage bot human st cid t1 ("user") env1).1 cid t2 ("user") env2).2
      = [env1.newThreadId] := by
  have hw : ∀ esc : List String, shas esc cid = false →
      SJ.isConversationWithHuman bot esc cid (some none) = false := by
    intro esc h
    simp [SJ.isConversationWithHuman, jsTruthyO, h]
  have hut1 : useThread st.threads cid env1.newThreadId = env1.newThreadId :=
    useThread_fresh st.threads cid env1.newThreadId h0
  have hstep1 : SJ.processUserMessage bot human st cid t1 ("user") env1
      = (⟨mset st.threads cid env1.newThreadId, st.escalated⟩,
         (if jsTruthyO bot then [Event.reassign cid bot] else []) ++
           [Event.assistantCall env1.newThreadId t1, Event.send cid r1]) := by
    by_cases hb : jsTruthyO bot = true <;>
      simp [SJ.processUserMessage, hcid, ht1, hq1, hw st.escalated hesc, ha1, hs1, hne1,
        hb, hut1]
  have hut2 : useThread (mset st.threads cid env1.newThreadId) cid env2.newThreadId
      = env1.newThreadId := by
    simp [useThread, mget_mset_self, htid]
  constructor
  · rw [hstep1]
    by_cases hb : jsTruthyO bot = true <;>
      simp [hb, assistantCalls, List.filterMap]
  · rw [hstep1]
    by_cases hb : jsTruthyO bot = true <;>
    by_cases hs2 : env2.sendReplyOk = true <;>
    by_cases he2 : SJ.needsEscalation r2 = true <;>
      simp [SJ.processUserMessage, hcid, ht2, hq2, hw st.escalated hesc, ha2, hs2, he2,
        hb, hut2, assistantCalls_append, assistantCalls_nil, assistantCalls_send,
        assistantCalls_reassign, assistantCalls_cons_call, assistantCalls_escalate]

/-- C9 witness: the theorem at a concrete fresh conversation; the second
call reuses thread "T9" created by the first, not "T9b". -/
theorem C9_witness :
    assistantCalls (SJ.processUserMessage none none ⟨[], []⟩ ("N1") ("hi") ("user") envFirstC9).2
      = [("T9")] ∧
    assistantCalls (SJ.processUserMessage none none
        (SJ.processUserMessage none none ⟨[], []⟩ ("N1") ("hi") ("user") envFirstC9).1
        ("N1") ("more") ("user") envSecondC9).2
      = [("T9")] :=
  C9_thm none none ⟨[], []⟩ ("N1") ("hi") ("more") ("Hello!") ("Sure thing.")
    envFirstC9 envSecondC9 (by decide) (by decide) (by decide) rfl (by decide)
    rfl rfl rfl rfl (by decide) rfl (by decide)

/-- C10: when the ownership GET to the messaging platform fails,
`isConversationWithHuman` returns `false` whatever the contents of the
in-memory escalated set (the catch never consults it); consequently, for
a conversation in the escalated set, a failed ownership query lets the
pipeline call the assistant and send a reply (conversation "E2" below is
escalated, yet the trace shows an assistant submission and an outbound
reply). -/
theorem C10_thm :
    (∀ (bot : Option String) (escalated : List String) (cid : String),
      SJ.isConversationWithHuman bot escalated cid none = false) ∧
    shas stEscC10.escalated ("E2") = true ∧
    assistantCalls (SJ.processUserMessage none none stEscC10 ("E2") ("help") ("user") envFailC10).2
      = [("T2")] ∧
    sentMessages (SJ.processUserMessage none none stEscC10 ("E2") ("help") ("user") envFailC10).2
      = [(("E2"), ("Hi."))] := by
  refine ⟨fun bot escalated cid => rfl, by decide, by decide, by decide⟩
